import Mathlib

/-!
# SynthTalk plugin processor

A shallow embedding of `PluginProcessor.cpp`: the parameter layout built by
`createParams`, the constructor, the parameter-application loop and buffer
clearing of `processBlock`, and the two persistence hooks.

Conventions of the embedding:

* `float` values are carried as rationals; the processor only moves them
  around (the decimal literals of the source are read as exact decimals).
* `int` loop counters and `paramId` are naturals (they only count upwards from
  zero, and stay below `2^31` for any oscillator count whose parameters fit in
  memory); the constructor argument `numberOfVoices` is a signed integer;
  `juce::String (osc)` is the decimal rendering `toString osc`.
* `NUMBER_OF_VOICES` and `NUMBER_OF_OSCILLATORS` come from `Data/SynthData.h`,
  which is not part of the sources at hand: they are explicit arguments.
* JUCE library calls whose body is not in the repository (`renderNextBlock`)
  are explicit function arguments.
-/

namespace SynthTalk

/-! ## Parameter layout -/

/-- The `juce::NormalisableRange<float>` brace initialiser: start, end,
interval and (optional, default `1`) skew factor. -/
structure NormalisableRange where
  start : ℚ
  stop : ℚ
  interval : ℚ
  skew : ℚ := 1
  deriving DecidableEq, Repr

/-- The three parameter classes `createParams` instantiates, with the
value domain each one is given. -/
inductive ParameterDomain where
  | choice (choices : List String) (defaultItemIndex : Nat)
  | bool (defaultValue : Bool)
  | float (range : NormalisableRange) (defaultValue : ℚ)
  deriving DecidableEq, Repr

/-- A `juce::RangedAudioParameter` as declared by `createParams`:
`juce::ParameterID (paramID, versionHint)`, the display name and the domain. -/
structure RangedAudioParameter where
  paramID : String
  versionHint : Nat
  name : String
  domain : ParameterDomain
  deriving DecidableEq, Repr

/-- The local state of `createParams`: the vector `params` and the counter
`paramId`. -/
structure ParamsBuilder where
  params : List RangedAudioParameter
  paramId : Nat
  deriving DecidableEq, Repr

/-- The lambda `addParam` of `createParams`: pre-increments `paramId` and
pushes a float parameter keyed `name + oscStr`. -/
def addParam (oscStr : String) (b : ParamsBuilder) (name label : String)
    (range : NormalisableRange) (defaultValue : ℚ) : ParamsBuilder :=
  let paramId := b.paramId + 1
  { params := b.params ++ [⟨name ++ oscStr, paramId, label, .float range defaultValue⟩],
    paramId := paramId }

/-- One iteration of the `for (osc ...)` loop of `createParams`. -/
def createParamsStep (b : ParamsBuilder) (osc : Nat) : ParamsBuilder :=
  let oscStr := toString osc
  -- OSC Select: uses `paramId` without incrementing it
  let b : ParamsBuilder :=
    { b with params := b.params ++
        [⟨"OSCWAVETYPE" ++ oscStr, b.paramId, "Osc Wave Type",
          .choice ["Sine", "Saw", "Square"] 0⟩] }
  -- OSC: `++paramId`
  let b : ParamsBuilder :=
    { params := b.params ++ [⟨"OSCON" ++ oscStr, b.paramId + 1, "Osc on", .bool false⟩],
      paramId := b.paramId + 1 }
  let b := addParam oscStr b "OSCOCTAVE" "Octave" ⟨-4, 4, 1, 1⟩ 0
  let b := addParam oscStr b "OSCSEMI" "Semi" ⟨-12, 12, 1, 1⟩ 0
  let b := addParam oscStr b "OSCDETUNE" "Detune" ⟨-100, 100, 1, 1⟩ 0
  let b := addParam oscStr b "OSCGAIN" "Gain" ⟨0, 1, 1/100, 1⟩ (1/2)
  -- FM
  let b := addParam oscStr b "OSCFMFREQ" "FM Frequency" ⟨0, 1000, 1/100, 3/10⟩ 5
  let b := addParam oscStr b "OSCFMDEPTH" "FM Depth" ⟨0, 1000, 1/100, 3/10⟩ 50
  -- ADSR
  let b := addParam oscStr b "ATTACK" "Attack" ⟨1/10, 1, 1/10, 1⟩ (1/10)
  let b := addParam oscStr b "DECAY" "Decay" ⟨1/10, 1, 1/10, 1⟩ (1/10)
  let b := addParam oscStr b "SUSTAIN" "Sustain" ⟨1/10, 1, 1/10, 1⟩ 1
  let b := addParam oscStr b "RELEASE" "Release" ⟨1/10, 3, 1/10, 1⟩ (4/10)
  b

/-- The function `SynthTalkAudioProcessor::createParams`, for a given value of
`NUMBER_OF_OSCILLATORS`: the declared parameters in declaration order. -/
def createParams (NUMBER_OF_OSCILLATORS : Nat) : List RangedAudioParameter :=
  ((List.range NUMBER_OF_OSCILLATORS).foldl createParamsStep ⟨[], 0⟩).params

/-- The twelve parameters one loop iteration appends, when the iteration
starts with counter value `paramId`. -/
def oscillatorBlock (osc paramId : Nat) : List RangedAudioParameter :=
  [ ⟨"OSCWAVETYPE" ++ toString osc, paramId, "Osc Wave Type",
      .choice ["Sine", "Saw", "Square"] 0⟩,
    ⟨"OSCON" ++ toString osc, paramId + 1, "Osc on", .bool false⟩,
    ⟨"OSCOCTAVE" ++ toString osc, paramId + 2, "Octave", .float ⟨-4, 4, 1, 1⟩ 0⟩,
    ⟨"OSCSEMI" ++ toString osc, paramId + 3, "Semi", .float ⟨-12, 12, 1, 1⟩ 0⟩,
    ⟨"OSCDETUNE" ++ toString osc, paramId + 4, "Detune", .float ⟨-100, 100, 1, 1⟩ 0⟩,
    ⟨"OSCGAIN" ++ toString osc, paramId + 5, "Gain", .float ⟨0, 1, 1/100, 1⟩ (1/2)⟩,
    ⟨"OSCFMFREQ" ++ toString osc, paramId + 6, "FM Frequency",
      .float ⟨0, 1000, 1/100, 3/10⟩ 5⟩,
    ⟨"OSCFMDEPTH" ++ toString osc, paramId + 7, "FM Depth",
      .float ⟨0, 1000, 1/100, 3/10⟩ 50⟩,
    ⟨"ATTACK" ++ toString osc, paramId + 8, "Attack", .float ⟨1/10, 1, 1/10, 1⟩ (1/10)⟩,
    ⟨"DECAY" ++ toString osc, paramId + 9, "Decay", .float ⟨1/10, 1, 1/10, 1⟩ (1/10)⟩,
    ⟨"SUSTAIN" ++ toString osc, paramId + 10, "Sustain", .float ⟨1/10, 1, 1/10, 1⟩ 1⟩,
    ⟨"RELEASE" ++ toString osc, paramId + 11, "Release",
      .float ⟨1/10, 3, 1/10, 1⟩ (4/10)⟩ ]

/-- The parameter names, in declaration order. -/
def parameterNames : List String :=
  ["OSCWAVETYPE", "OSCON", "OSCOCTAVE", "OSCSEMI", "OSCDETUNE", "OSCGAIN",
   "OSCFMFREQ", "OSCFMDEPTH", "ATTACK", "DECAY", "SUSTAIN", "RELEASE"]

/-- Value of a list of decimal digit characters, most significant first. -/
def decimalValue (cs : List Char) : Nat :=
  cs.foldl (fun acc c => 10 * acc + (c.toNat - 48)) 0

/-! ## Parameter store -/

/-- The raw (float) default value a parameter starts with. -/
def ParameterDomain.defaultRawValue : ParameterDomain → ℚ
  | .choice _ defaultItemIndex => defaultItemIndex
  | .bool defaultValue => if defaultValue then 1 else 0
  | .float _ defaultValue => defaultValue

/-- The `juce::AudioProcessorValueTreeState`: the declared parameters and the
current raw value stored under each parameter key (the parameter snapshot). -/
structure AudioProcessorValueTreeState where
  parameters : List RangedAudioParameter
  values : String → ℚ

/-- Lookup of a declared parameter by key (`getParameter`): the first
parameter carrying that key, if any. -/
def getParameter (parameters : List RangedAudioParameter) (paramID : String) :
    Option RangedAudioParameter :=
  parameters.find? (fun p => p.paramID == paramID)

/-- The call `apvts.getRawParameterValue (paramID)`: the current value of the
parameter with that key, or `none` (a null pointer) when no such parameter is
declared. -/
def AudioProcessorValueTreeState.getRawParameterValue
    (apvts : AudioProcessorValueTreeState) (paramID : String) : Option ℚ :=
  (getParameter apvts.parameters paramID).map (fun p => apvts.values p.paramID)

/-- The state tree `apvts (*this, nullptr, "Parameters", createParams())` as the
constructor builds it: every parameter holds its default value. -/
def AudioProcessorValueTreeState.create (parameters : List RangedAudioParameter) :
    AudioProcessorValueTreeState :=
  { parameters := parameters
    values := fun paramID =>
      match getParameter parameters paramID with
      | some p => p.domain.defaultRawValue
      | none => 0 }

/-! ## Voices -/

/-- Modelled from the spec: the oscillator of a `SynthVoice` (the class lives in
headers outside the sources at hand). It holds the Oscillator Settings and ADSR
Settings of the data model, one field per argument of the setters that
`processBlock` calls, each stored as the float it is passed. -/
structure Oscillator where
  waveType : ℚ
  oscOn : ℚ
  octave : ℚ
  semi : ℚ
  detune : ℚ
  gain : ℚ
  attack : ℚ
  decay : ℚ
  sustain : ℚ
  release : ℚ
  fmDepth : ℚ
  fmFreq : ℚ
  deriving DecidableEq, Repr

/-- Modelled from the spec: `setWaveType`, the pure setter of the waveform
kind (missing: the oscillator class). -/
def Oscillator.setWaveType (o : Oscillator) (choice : ℚ) : Oscillator :=
  { o with waveType := choice }

/-- Modelled from the spec: `setOscOn`, the pure setter of the enabled flag
(missing: the oscillator class). -/
def Oscillator.setOscOn (o : Oscillator) (isOn : ℚ) : Oscillator :=
  { o with oscOn := isOn }

/-- Modelled from the spec: `setOscParams`, the pure setter of tuning and gain
(missing: the oscillator class). -/
def Oscillator.setOscParams (o : Oscillator) (octave semi detune gain : ℚ) : Oscillator :=
  { o with octave := octave, semi := semi, detune := detune, gain := gain }

/-- Modelled from the spec: `setADSR`, the pure setter of the envelope settings
(missing: the oscillator class). -/
def Oscillator.setADSR (o : Oscillator) (attack decay sustain release : ℚ) : Oscillator :=
  { o with attack := attack, decay := decay, sustain := sustain, release := release }

/-- Modelled from the spec: `setFMParams`, the pure setter of the FM modulator
depth and frequency (missing: the oscillator class). -/
def Oscillator.setFMParams (o : Oscillator) (depth freq : ℚ) : Oscillator :=
  { o with fmDepth := depth, fmFreq := freq }

/-- Modelled from the spec: a `SynthVoice` owns a bank of oscillators addressed
by slot index (missing: the voice class). -/
structure SynthVoice where
  oscillators : Nat → Oscillator

/-- The accessor `voice->getOscillator (osc)`. -/
def SynthVoice.getOscillator (voice : SynthVoice) (osc : Nat) : Oscillator :=
  voice.oscillators osc

/-- An in-place setter call `voice->getOscillator (osc).set... (...)` through
the reference `getOscillator` returns. -/
def SynthVoice.onOscillator (voice : SynthVoice) (osc : Nat)
    (set : Oscillator → Oscillator) : SynthVoice :=
  { oscillators := Function.update voice.oscillators osc (set (voice.getOscillator osc)) }

/-- The `SynthSound` class carries no data. -/
structure SynthSound where
  deriving DecidableEq, Repr

/-- The part of `juce::Synthesiser` the processor touches: its sounds and its
voice pool. -/
structure Synthesiser where
  sounds : List SynthSound
  voices : List SynthVoice

/-- The call `synth.addSound (...)`. -/
def Synthesiser.addSound (synth : Synthesiser) (sound : SynthSound) : Synthesiser :=
  { synth with sounds := synth.sounds ++ [sound] }

/-- The call `synth.addVoice (...)`. -/
def Synthesiser.addVoice (synth : Synthesiser) (voice : SynthVoice) : Synthesiser :=
  { synth with voices := synth.voices ++ [voice] }

/-- The call `synth.getVoice (i)`: the JUCE voice array answers an index past
its end with a null pointer, here `none`. Every voice in the pool is a
`SynthVoice`, so the `dynamic_cast` succeeds on every non-null result. -/
def Synthesiser.getVoice (synth : Synthesiser) (i : Nat) : Option SynthVoice :=
  synth.voices[i]?

/-- Writing through the voice pointer obtained from `getVoice (i)`. -/
def Synthesiser.setVoice (synth : Synthesiser) (i : Nat) (voice : SynthVoice) :
    Synthesiser :=
  { synth with voices := synth.voices.set i voice }

/-! ## Audio buffer -/

/-- A `juce::AudioBuffer<float>`: channel count, frame count and the sample
stored at each (channel, frame). -/
structure AudioBuffer where
  numChannels : Nat
  numSamples : Nat
  data : Nat → Nat → ℚ

/-- The accessor `buffer.getNumSamples ()`. -/
def AudioBuffer.getNumSamples (buffer : AudioBuffer) : Nat := buffer.numSamples

/-- The call `buffer.clear (channel, startSample, numSamples)`: zeroes the frames
`startSample .. startSample + numSamples - 1` of one channel. Samples are
addressed by (channel, frame); only those with `channel < numChannels` and
`frame < numSamples` belong to the buffer. -/
def AudioBuffer.clear (buffer : AudioBuffer) (channel startSample numSamples : Nat) :
    AudioBuffer :=
  { buffer with
    data := fun c j =>
      if c = channel ∧ startSample ≤ j ∧ j < startSample + numSamples then 0
      else buffer.data c j }

/-- One MIDI event of a `juce::MidiBuffer`: raw bytes and sample position. -/
structure MidiMessage where
  bytes : List Nat
  samplePosition : Nat
  deriving DecidableEq, Repr

/-- A `juce::MidiBuffer`. -/
abbrev MidiBuffer := List MidiMessage

/-- A `juce::MemoryBlock`: a sequence of bytes. -/
abbrev MemoryBlock := List Nat

/-- The type of `juce::Synthesiser::renderNextBlock (buffer, midi, startSample,
numSamples)`, a library routine outside the repository: it returns the new
synthesiser state and the buffer it rendered into. -/
abbrev RenderNextBlock :=
  Synthesiser → AudioBuffer → MidiBuffer → Nat → Nat → Synthesiser × AudioBuffer

/-! ## The processor -/

/-- The state of a `SynthTalkAudioProcessor`: the negotiated channel counts of
the `AudioProcessor` base, the parameter tree, the synthesiser and the stored
voice count. -/
structure SynthTalkAudioProcessor where
  totalNumInputChannels : Nat
  totalNumOutputChannels : Nat
  apvts : AudioProcessorValueTreeState
  synth : Synthesiser
  numberOfVoices : Int

/-- The external parameter source overwriting the current parameter values
with a new snapshot. -/
def SynthTalkAudioProcessor.withSnapshot (p : SynthTalkAudioProcessor)
    (snapshot : String → ℚ) : SynthTalkAudioProcessor :=
  { p with apvts := { p.apvts with values := snapshot } }

/-- The initialiser list and body of the constructor
`SynthTalkAudioProcessor (int numberOfVoices)`. The channel counts of the bus
layout and the state of a freshly allocated `SynthVoice` are arguments. -/
def SynthTalkAudioProcessor.constructorBody (NUMBER_OF_OSCILLATORS : Nat)
    (totalNumInputChannels totalNumOutputChannels : Nat) (newSynthVoice : SynthVoice)
    (numberOfVoices : Int) : SynthTalkAudioProcessor :=
  let synth : Synthesiser := { sounds := [], voices := [] }
  let synth := synth.addSound SynthSound.mk
  let synth := (List.range numberOfVoices.toNat).foldl
    (fun synth _ => synth.addVoice newSynthVoice) synth
  { totalNumInputChannels := totalNumInputChannels
    totalNumOutputChannels := totalNumOutputChannels
    apvts := AudioProcessorValueTreeState.create (createParams NUMBER_OF_OSCILLATORS)
    synth := synth
    numberOfVoices := numberOfVoices }

/-- Construction as an operation that could report a configuration error: the
constructor has no failing path (no check, no throw), so the outcome is always
the constructed processor. -/
def SynthTalkAudioProcessor.construct (NUMBER_OF_OSCILLATORS : Nat)
    (totalNumInputChannels totalNumOutputChannels : Nat) (newSynthVoice : SynthVoice)
    (numberOfVoices : Int) : Except String SynthTalkAudioProcessor :=
  .ok (SynthTalkAudioProcessor.constructorBody NUMBER_OF_OSCILLATORS totalNumInputChannels
    totalNumOutputChannels newSynthVoice numberOfVoices)

/-- The body of the `for (osc ...)` loop of `processBlock` for one voice: twelve
parameter lookups, each dereferenced (a missing parameter is a null
dereference, here `none`), then the setter calls. The call to `setFMParams` is
commented out in the source, so `fmDepth` and `fmFreq` are read and dropped. -/
def applyOscillatorParameters (apvts : AudioProcessorValueTreeState)
    (voice : SynthVoice) (osc : Nat) : Option SynthVoice := do
  let oscStr := toString osc
  -- OSC
  let oscWaveType ← apvts.getRawParameterValue ("OSCWAVETYPE" ++ oscStr)
  let oscOn ← apvts.getRawParameterValue ("OSCON" ++ oscStr)
  let oscOctave ← apvts.getRawParameterValue ("OSCOCTAVE" ++ oscStr)
  let oscSemi ← apvts.getRawParameterValue ("OSCSEMI" ++ oscStr)
  let oscDetune ← apvts.getRawParameterValue ("OSCDETUNE" ++ oscStr)
  let oscGain ← apvts.getRawParameterValue ("OSCGAIN" ++ oscStr)
  -- ADSR
  let attack ← apvts.getRawParameterValue ("ATTACK" ++ oscStr)
  let decay ← apvts.getRawParameterValue ("DECAY" ++ oscStr)
  let sustain ← apvts.getRawParameterValue ("SUSTAIN" ++ oscStr)
  let release ← apvts.getRawParameterValue ("RELEASE" ++ oscStr)
  -- FM
  let _fmDepth ← apvts.getRawParameterValue ("OSCFMDEPTH" ++ oscStr)
  let _fmFreq ← apvts.getRawParameterValue ("OSCFMFREQ" ++ oscStr)
  let voice := voice.onOscillator osc (fun o => o.setWaveType oscWaveType)
  let voice := voice.onOscillator osc (fun o => o.setOscOn oscOn)
  let voice := voice.onOscillator osc
    (fun o => o.setOscParams oscOctave oscSemi oscDetune oscGain)
  let voice := voice.onOscillator osc (fun o => o.setADSR attack decay sustain release)
  pure voice

/-- The inner loop `for (int osc = 0; osc < NUMBER_OF_OSCILLATORS; ++osc)`. -/
def applyVoiceParameters (NUMBER_OF_OSCILLATORS : Nat)
    (apvts : AudioProcessorValueTreeState) (voice : SynthVoice) : Option SynthVoice :=
  (List.range NUMBER_OF_OSCILLATORS).foldlM (applyOscillatorParameters apvts) voice

/-- One iteration of the outer loop of `processBlock`: voice `i` is updated when
`getVoice (i)` is not null. -/
def applyParametersStep (NUMBER_OF_OSCILLATORS : Nat)
    (apvts : AudioProcessorValueTreeState) (synth : Synthesiser) (i : Nat) :
    Option Synthesiser :=
  match synth.getVoice i with
  | some voice =>
    (applyVoiceParameters NUMBER_OF_OSCILLATORS apvts voice).map (synth.setVoice i)
  | none => some synth

/-- The parameter-application loop of `processBlock`,
`for (int i = 0; i < NUMBER_OF_VOICES; ++i)`. -/
def applyParameters (NUMBER_OF_VOICES NUMBER_OF_OSCILLATORS : Nat)
    (apvts : AudioProcessorValueTreeState) (synth : Synthesiser) : Option Synthesiser :=
  (List.range NUMBER_OF_VOICES).foldlM (applyParametersStep NUMBER_OF_OSCILLATORS apvts) synth

/-- The first loop of `processBlock`: clears every channel `i` with
`totalNumInputChannels ≤ i < totalNumOutputChannels`. -/
def clearUnusedOutputChannels (totalNumInputChannels totalNumOutputChannels : Nat)
    (buffer : AudioBuffer) : AudioBuffer :=
  (List.range' totalNumInputChannels (totalNumOutputChannels - totalNumInputChannels)).foldl
    (fun buffer i => buffer.clear i 0 buffer.getNumSamples) buffer

/-- The function `SynthTalkAudioProcessor::processBlock`: clear the unused output
channels, apply the parameters to the voices, render. The result is `none`
when a parameter lookup dereferences a null pointer. -/
def processBlock (NUMBER_OF_VOICES NUMBER_OF_OSCILLATORS : Nat)
    (renderNextBlock : RenderNextBlock) (p : SynthTalkAudioProcessor)
    (buffer : AudioBuffer) (midiMessages : MidiBuffer) :
    Option (SynthTalkAudioProcessor × AudioBuffer) :=
  let buffer := clearUnusedOutputChannels p.totalNumInputChannels
    p.totalNumOutputChannels buffer
  match applyParameters NUMBER_OF_VOICES NUMBER_OF_OSCILLATORS p.apvts p.synth with
  | none => none
  | some synth =>
    let rendered := renderNextBlock synth buffer midiMessages 0 buffer.getNumSamples
    some ({ p with synth := rendered.1 }, rendered.2)

/-- The function `getStateInformation`: its body is empty, `destData` is left as
it was passed in. -/
def getStateInformation (_p : SynthTalkAudioProcessor) (destData : MemoryBlock) :
    MemoryBlock :=
  destData

/-- The function `setStateInformation`: its body is empty, the processor is left
as it was. -/
def setStateInformation (p : SynthTalkAudioProcessor) (_data : MemoryBlock)
    (_sizeInBytes : Int) : SynthTalkAudioProcessor :=
  p

/-! ## Pure descriptions used by the theorems -/

/-- What the four setter calls of one loop iteration make of an oscillator,
given the snapshot: all settings but the two FM ones are replaced. -/
def appliedOscillator (snapshot : String → ℚ) (osc : Nat) (o : Oscillator) : Oscillator :=
  { o with
    waveType := snapshot ("OSCWAVETYPE" ++ toString osc)
    oscOn := snapshot ("OSCON" ++ toString osc)
    octave := snapshot ("OSCOCTAVE" ++ toString osc)
    semi := snapshot ("OSCSEMI" ++ toString osc)
    detune := snapshot ("OSCDETUNE" ++ toString osc)
    gain := snapshot ("OSCGAIN" ++ toString osc)
    attack := snapshot ("ATTACK" ++ toString osc)
    decay := snapshot ("DECAY" ++ toString osc)
    sustain := snapshot ("SUSTAIN" ++ toString osc)
    release := snapshot ("RELEASE" ++ toString osc) }

/-- A voice after the inner loop ran over the first `n` oscillator slots. -/
def appliedVoice (snapshot : String → ℚ) (n : Nat) (voice : SynthVoice) : SynthVoice :=
  { oscillators := fun osc =>
      if osc < n then appliedOscillator snapshot osc (voice.oscillators osc)
      else voice.oscillators osc }

/-- The voice pool after the outer loop ran over the first `k` indices. -/
def appliedSynth (snapshot : String → ℚ) (n k : Nat) (synth : Synthesiser) : Synthesiser :=
  { synth with
    voices := synth.voices.mapIdx
      (fun i voice => if i < k then appliedVoice snapshot n voice else voice) }

/-- An oscillator with every setting zero, used in concrete examples. -/
def zeroOscillator : Oscillator := ⟨0, 0, 0, 0, 0, 0, 0, 0, 0, 0, 0, 0⟩

/-- A voice whose oscillators all have every setting zero. -/
def zeroVoice : SynthVoice := ⟨fun _ => zeroOscillator⟩

/-- A render routine that contributes nothing: state and buffer are returned
as received. -/
def silentRender : RenderNextBlock := fun synth buffer _ _ _ => (synth, buffer)

/-! ## Concrete inputs used by the closed theorems -/

/-- A processor for `NUMBER_OF_OSCILLATORS = 1` with no input channel and two
output channels, constructed with three zero voices, whose snapshot stores `1`
under every key. -/
def threeVoiceProcessor : SynthTalkAudioProcessor :=
  (SynthTalkAudioProcessor.constructorBody 1 0 2 zeroVoice 3).withSnapshot (fun _ => 1)

/-- A processor for `NUMBER_OF_OSCILLATORS = 1` with no input channel and two
output channels, constructed with one zero voice, whose snapshot stores `1` under
every key. -/
def oneVoiceProcessor : SynthTalkAudioProcessor :=
  (SynthTalkAudioProcessor.constructorBody 1 0 2 zeroVoice 1).withSnapshot (fun _ => 1)

/-- A processor with two input and two output channels (the bus layout of the
constructor when the plugin is not flagged as a synth), one zero voice. -/
def stereoThroughProcessor : SynthTalkAudioProcessor :=
  SynthTalkAudioProcessor.constructorBody 1 2 2 zeroVoice 1

/-- A two-channel buffer of zero frames. -/
def emptyBuffer : AudioBuffer := ⟨2, 0, fun _ _ => 0⟩

/-- A two-channel buffer of one frame holding the sample `1` everywhere. -/
def onesBuffer : AudioBuffer := ⟨2, 1, fun _ _ => 1⟩

/-- A snapshot storing `1/2` under every key. -/
def halfSnapshot : String → ℚ := fun _ => 1 / 2

/-- A snapshot storing `9/10` under every key. -/
def otherSnapshot : String → ℚ := fun _ => 9 / 10

/-- A processor for `NUMBER_OF_OSCILLATORS = 1` with no input channel and two
output channels, constructed with one zero voice, every parameter at its
declared default (so `OSCON0` is off). -/
def defaultProcessor : SynthTalkAudioProcessor :=
  SynthTalkAudioProcessor.constructorBody 1 0 2 zeroVoice 1

/-- A render routine that depends on the synthesiser state: it adds the on flag
of voice 0, oscillator 0 to every sample of the requested frames, so it sounds
exactly when that oscillator is switched on. -/
def voiceOnRender : RenderNextBlock := fun synth buffer _ startSample numSamples =>
  let level : ℚ :=
    match synth.getVoice 0 with
    | some voice => (voice.getOscillator 0).oscOn
    | none => 0
  (synth,
    { buffer with
      data := fun c j =>
        if startSample ≤ j ∧ j < startSample + numSamples then buffer.data c j + level
        else buffer.data c j })

/-! ## Theorems -/

theorem createParamsStep_eq (b : ParamsBuilder) (osc : Nat) :
    createParamsStep b osc =
      ⟨b.params ++ oscillatorBlock osc b.paramId, b.paramId + 11⟩ := by
  simp [createParamsStep, addParam, oscillatorBlock, List.append_assoc]

theorem foldl_createParamsStep (n : Nat) :
    (List.range n).foldl createParamsStep ⟨[], 0⟩ =
      ⟨(List.range n).flatMap (fun o => oscillatorBlock o (11 * o)), 11 * n⟩ := by
  induction n with
  | zero => rfl
  | succ n ih =>
    rw [List.range_succ, List.foldl_append, ih]
    simp [createParamsStep_eq, List.flatMap, Nat.mul_succ]

theorem createParams_eq (n : Nat) :
    createParams n = (List.range n).flatMap (fun o => oscillatorBlock o (11 * o)) := by
  simp [createParams, foldl_createParamsStep]

theorem digitChar_toNat_sub (k : Nat) (hk : k < 10) : (Nat.digitChar k).toNat - 48 = k := by
  interval_cases k <;> rfl

theorem digitChar_isDigit (k : Nat) (hk : k < 10) : (Nat.digitChar k).isDigit = true := by
  interval_cases k <;> rfl

theorem foldl_toDigitsCore (fuel : Nat) : ∀ (n : Nat) (ds : List Char), n < fuel →
    (Nat.toDigitsCore 10 fuel n ds).foldl (fun acc c => 10 * acc + (c.toNat - 48)) 0 =
      ds.foldl (fun acc c => 10 * acc + (c.toNat - 48)) n := by
  induction fuel with
  | zero => intro n ds h; omega
  | succ fuel ih =>
    intro n ds h
    have hd := digitChar_toNat_sub (n % 10) (Nat.mod_lt _ (by decide))
    rw [Nat.toDigitsCore]
    by_cases h0 : n / 10 = 0
    · simp only [h0, if_true, List.foldl_cons, hd]
      congr 1; omega
    · simp only [h0, if_false]
      rw [ih (n / 10) _ (by omega)]
      simp only [List.foldl_cons, hd]
      congr 1; omega

theorem decimalValue_toString (n : Nat) : decimalValue (toString n).data = n := by
  show decimalValue (Nat.repr n).data = n
  simp only [Nat.repr, Nat.toDigits, List.asString, decimalValue]
  rw [foldl_toDigitsCore _ _ _ (Nat.lt_succ_self n)]
  rfl

theorem toString_nat_injective {a b : Nat} (h : toString a = toString b) : a = b := by
  have := congrArg (fun s => decimalValue s.data) h
  simpa [decimalValue_toString] using this

theorem toDigitsCore_all_isDigit (fuel : Nat) : ∀ (n : Nat) (ds : List Char),
    (∀ c ∈ ds, c.isDigit = true) → ∀ c ∈ Nat.toDigitsCore 10 fuel n ds, c.isDigit = true := by
  induction fuel with
  | zero => intro n ds h; simpa [Nat.toDigitsCore] using h
  | succ fuel ih =>
    intro n ds h
    have hd := digitChar_isDigit (n % 10) (Nat.mod_lt _ (by decide))
    rw [Nat.toDigitsCore]
    have h' : ∀ c ∈ Nat.digitChar (n % 10) :: ds, c.isDigit = true := by
      intro c hc
      rcases List.mem_cons.1 hc with rfl | hc
      · exact hd
      · exact h c hc
    by_cases h0 : n / 10 = 0
    · simpa only [h0, if_true] using h'
    · simp only [h0, if_false]
      exact ih _ _ h'

theorem toString_nat_all_isDigit (n : Nat) : ∀ c ∈ (toString n).data, c.isDigit = true := by
  show ∀ c ∈ (Nat.repr n).data, c.isDigit = true
  simp only [Nat.repr, Nat.toDigits, List.asString]
  exact toDigitsCore_all_isDigit _ _ _ (by simp)

/-- Splitting at the first digit is unambiguous: a digit-free prefix followed by
digits determines both parts. -/
theorem append_digits_cancel : ∀ (l₁ l₂ d₁ d₂ : List Char),
    (∀ c ∈ l₁, c.isDigit = false) → (∀ c ∈ l₂, c.isDigit = false) →
    (∀ c ∈ d₁, c.isDigit = true) → (∀ c ∈ d₂, c.isDigit = true) →
    l₁ ++ d₁ = l₂ ++ d₂ → l₁ = l₂ ∧ d₁ = d₂
  | [], [], _, _, _, _, _, _, h => ⟨rfl, by simpa using h⟩
  | [], c :: l₂, d₁, d₂, _, h₂, h₃, _, h => by
    exfalso
    have hc : c ∈ d₁ := by simp at h; rw [h]; simp
    have := h₃ c hc
    have := h₂ c (by simp)
    simp_all
  | c :: l₁, [], d₁, d₂, h₁, _, _, h₄, h => by
    exfalso
    have hc : c ∈ d₂ := by simp at h; rw [← h]; simp
    have := h₄ c hc
    have := h₁ c (by simp)
    simp_all
  | c :: l₁, c' :: l₂, d₁, d₂, h₁, h₂, h₃, h₄, h => by
    simp only [List.cons_append, List.cons.injEq] at h
    obtain ⟨rfl, h⟩ := h
    have := append_digits_cancel l₁ l₂ d₁ d₂ (fun x hx => h₁ x (by simp [hx]))
      (fun x hx => h₂ x (by simp [hx])) h₃ h₄ h
    exact ⟨by rw [this.1], this.2⟩

theorem key_injective {s t : String} {a b : Nat}
    (hs : ∀ c ∈ s.data, c.isDigit = false) (ht : ∀ c ∈ t.data, c.isDigit = false)
    (h : s ++ toString a = t ++ toString b) : s = t ∧ a = b := by
  have h' := congrArg String.data h
  simp only [String.data_append] at h'
  obtain ⟨h1, h2⟩ := append_digits_cancel _ _ _ _ hs ht (toString_nat_all_isDigit a)
    (toString_nat_all_isDigit b) h'
  refine ⟨String.ext h1, toString_nat_injective (String.ext h2)⟩

/-! ### The declared keys -/

theorem mem_createParams {n : Nat} {p : RangedAudioParameter} :
    p ∈ createParams n ↔ ∃ o, o < n ∧ p ∈ oscillatorBlock o (11 * o) := by
  simp [createParams_eq, List.mem_flatMap]

theorem oscillatorBlock_keys (o k : Nat) :
    (oscillatorBlock o k).map (fun p => p.paramID) =
      parameterNames.map (fun name => name ++ toString o) := rfl

theorem parameterNames_noDigit :
    ∀ name ∈ parameterNames, ∀ c ∈ name.data, c.isDigit = false := by
  decide

theorem parameterNames_nodup : parameterNames.Nodup := by
  decide

theorem oscillatorBlock_keys_nodup (o k : Nat) :
    ((oscillatorBlock o k).map (fun p => p.paramID)).Nodup := by
  rw [oscillatorBlock_keys]
  refine List.Nodup.map_on ?_ parameterNames_nodup
  intro x hx y hy h
  exact (key_injective (parameterNames_noDigit x hx) (parameterNames_noDigit y hy) h).1

theorem createParams_keys_nodup (n : Nat) :
    ((createParams n).map (fun p => p.paramID)).Nodup := by
  rw [createParams_eq, List.map_flatMap, List.nodup_flatMap]
  refine ⟨fun o _ => oscillatorBlock_keys_nodup o _, ?_⟩
  refine List.Nodup.pairwise_of_forall_ne (List.nodup_range n) ?_
  intro a _ b _ hab
  simp only [Function.onFun, oscillatorBlock_keys]
  intro k hka hkb
  obtain ⟨x, hx, rfl⟩ := List.mem_map.1 hka
  obtain ⟨y, hy, hxy⟩ := List.mem_map.1 hkb
  exact hab (key_injective (parameterNames_noDigit x hx) (parameterNames_noDigit y hy)
    hxy.symm).2

theorem getParameter_of_mem {l : List RangedAudioParameter} {p : RangedAudioParameter}
    (hl : (l.map (fun q => q.paramID)).Nodup) (hp : p ∈ l) :
    getParameter l p.paramID = some p := by
  induction l with
  | nil => cases hp
  | cons q l ih =>
    rw [List.map_cons, List.nodup_cons] at hl
    unfold getParameter at ih ⊢
    rcases List.mem_cons.1 hp with rfl | hp
    · simp
    · have hne : q.paramID ≠ p.paramID := by
        intro h
        exact hl.1 (h ▸ List.mem_map_of_mem _ hp)
      rw [List.find?_cons_of_neg _ (by simpa using hne)]
      exact ih hl.2 hp

theorem getRawParameterValue_of_mem {l : List RangedAudioParameter}
    {p : RangedAudioParameter} (values : String → ℚ) (hp : p ∈ l) :
    AudioProcessorValueTreeState.getRawParameterValue ⟨l, values⟩ p.paramID =
      some (values p.paramID) := by
  unfold AudioProcessorValueTreeState.getRawParameterValue getParameter
  have h : (l.find? (fun q => q.paramID == p.paramID)).isSome := by
    rw [List.find?_isSome]
    exact ⟨p, hp, by simp⟩
  obtain ⟨q, hq⟩ := Option.isSome_iff_exists.1 h
  have hk := List.find?_some hq
  simp only [beq_iff_eq] at hk
  simp [hq, hk]

theorem getRawParameterValue_declared (n o : Nat) (ho : o < n) (values : String → ℚ)
    (name : String) (hname : name ∈ parameterNames) :
    AudioProcessorValueTreeState.getRawParameterValue ⟨createParams n, values⟩
      (name ++ toString o) = some (values (name ++ toString o)) := by
  have hk : name ++ toString o ∈ (oscillatorBlock o (11 * o)).map (fun p => p.paramID) := by
    rw [oscillatorBlock_keys]
    exact List.mem_map_of_mem _ hname
  obtain ⟨p, hp, hpk⟩ := List.mem_map.1 hk
  have := getRawParameterValue_of_mem values (mem_createParams.2 ⟨o, ho, hp⟩)
  rw [hpk] at this
  exact this

/-! ### The parameter-application loop -/

theorem applyOscillatorParameters_eq (n o : Nat) (ho : o < n) (values : String → ℚ)
    (voice : SynthVoice) :
    applyOscillatorParameters ⟨createParams n, values⟩ voice o =
      some ⟨Function.update voice.oscillators o
        (appliedOscillator values o (voice.oscillators o))⟩ := by
  have h (name : String) (hname : name ∈ parameterNames) :=
    getRawParameterValue_declared n o ho values name hname
  simp only [applyOscillatorParameters, h _ (by decide : "OSCWAVETYPE" ∈ parameterNames),
    h _ (by decide : "OSCON" ∈ parameterNames), h _ (by decide : "OSCOCTAVE" ∈ parameterNames),
    h _ (by decide : "OSCSEMI" ∈ parameterNames), h _ (by decide : "OSCDETUNE" ∈ parameterNames),
    h _ (by decide : "OSCGAIN" ∈ parameterNames), h _ (by decide : "ATTACK" ∈ parameterNames),
    h _ (by decide : "DECAY" ∈ parameterNames), h _ (by decide : "SUSTAIN" ∈ parameterNames),
    h _ (by decide : "RELEASE" ∈ parameterNames), h _ (by decide : "OSCFMDEPTH" ∈ parameterNames),
    h _ (by decide : "OSCFMFREQ" ∈ parameterNames), Option.pure_def, Option.bind_eq_bind,
    Option.some_bind, SynthVoice.onOscillator, SynthVoice.getOscillator, Function.update_same,
    Function.update_idem, Oscillator.setWaveType, Oscillator.setOscOn, Oscillator.setOscParams,
    Oscillator.setADSR, appliedOscillator]

theorem foldlM_applyOscillatorParameters (n : Nat) (values : String → ℚ) (k : Nat)
    (hk : k ≤ n) (voice : SynthVoice) :
    (List.range k).foldlM (applyOscillatorParameters ⟨createParams n, values⟩) voice =
      some (appliedVoice values k voice) := by
  induction k with
  | zero => simp [appliedVoice]
  | succ k ih =>
    rw [List.range_succ, List.foldlM_append, ih (by omega)]
    simp only [Option.bind_eq_bind, Option.some_bind, List.foldlM_cons, List.foldlM_nil]
    rw [applyOscillatorParameters_eq n k (by omega)]
    simp only [Option.pure_def, Option.some_bind, Option.some.injEq, appliedVoice,
      SynthVoice.mk.injEq]
    funext osc
    by_cases h1 : osc = k
    · subst h1; simp
    · have h2 : osc < k + 1 ↔ osc < k := by omega
      simp [Function.update_noteq h1, h2]

theorem applyVoiceParameters_eq (n : Nat) (values : String → ℚ) (voice : SynthVoice) :
    applyVoiceParameters n ⟨createParams n, values⟩ voice =
      some (appliedVoice values n voice) :=
  foldlM_applyOscillatorParameters n values n (Nat.le_refl n) voice

theorem applyParametersStep_eq (n : Nat) (values : String → ℚ) (k : Nat)
    (synth : Synthesiser) :
    applyParametersStep n ⟨createParams n, values⟩ (appliedSynth values n k synth) k =
      some (appliedSynth values n (k + 1) synth) := by
  unfold applyParametersStep Synthesiser.getVoice
  simp only [appliedSynth, List.getElem?_mapIdx]
  cases hv : synth.voices[k]? with
  | none =>
    simp only [Option.map_none', Option.some.injEq, Synthesiser.mk.injEq, true_and]
    apply List.ext_getElem?
    intro i
    simp only [List.getElem?_mapIdx]
    cases hi : synth.voices[i]? with
    | none => rfl
    | some v =>
      have h1 : i < synth.voices.length := (List.getElem?_eq_some_iff.1 hi).1
      have h2 : synth.voices.length ≤ k := List.getElem?_eq_none_iff.1 hv
      have h3 : i < k := by omega
      have h4 : i < k + 1 := by omega
      simp [h3, h4]
  | some v =>
    simp only [Option.map_some', lt_self_iff_false, if_false, applyVoiceParameters_eq,
      Synthesiser.setVoice, Option.some.injEq, Synthesiser.mk.injEq, true_and]
    apply List.ext_getElem?
    intro i
    simp only [List.getElem?_set, List.getElem?_mapIdx, List.length_mapIdx]
    by_cases hik : k = i
    · subst hik
      have h1 : k < synth.voices.length := (List.getElem?_eq_some_iff.1 hv).1
      simp [h1, hv]
    · have h2 : i < k + 1 ↔ i < k := by omega
      simp [hik, h2]

theorem foldlM_applyParametersStep (n : Nat) (values : String → ℚ) (k : Nat)
    (synth : Synthesiser) :
    (List.range k).foldlM (applyParametersStep n ⟨createParams n, values⟩) synth =
      some (appliedSynth values n k synth) := by
  induction k with
  | zero =>
    simp only [List.range_zero, List.foldlM_nil, Option.pure_def, appliedSynth,
      Nat.not_lt_zero, if_false, Option.some.injEq]
    cases synth with
    | mk sounds voices =>
      simp only [Synthesiser.mk.injEq, true_and]
      apply List.ext_getElem?
      intro i
      simp
  | succ k ih =>
    rw [List.range_succ, List.foldlM_append, ih]
    simp [applyParametersStep_eq]

theorem applyParameters_eq (NUMBER_OF_VOICES NUMBER_OF_OSCILLATORS : Nat)
    (values : String → ℚ) (synth : Synthesiser) :
    applyParameters NUMBER_OF_VOICES NUMBER_OF_OSCILLATORS
        ⟨createParams NUMBER_OF_OSCILLATORS, values⟩ synth =
      some (appliedSynth values NUMBER_OF_OSCILLATORS NUMBER_OF_VOICES synth) :=
  foldlM_applyParametersStep NUMBER_OF_OSCILLATORS values NUMBER_OF_VOICES synth

theorem getVoice_appliedSynth (values : String → ℚ) (n k : Nat) (synth : Synthesiser)
    (i : Nat) :
    (appliedSynth values n k synth).getVoice i =
      (synth.getVoice i).map
        (fun voice => if i < k then appliedVoice values n voice else voice) := by
  simp [appliedSynth, Synthesiser.getVoice, List.getElem?_mapIdx]

/-! ### Construction and buffer clearing -/

theorem foldl_addVoice (voice : SynthVoice) (k : Nat) (synth : Synthesiser) :
    (List.range k).foldl (fun synth _ => synth.addVoice voice) synth =
      { synth with voices := synth.voices ++ List.replicate k voice } := by
  induction k with
  | zero => simp
  | succ k ih =>
    rw [List.range_succ, List.foldl_append, ih]
    simp [Synthesiser.addVoice, List.replicate_succ', List.append_assoc]

theorem constructorBody_synth (n i o : Nat) (voice : SynthVoice) (numberOfVoices : Int) :
    (SynthTalkAudioProcessor.constructorBody n i o voice numberOfVoices).synth =
      ⟨[SynthSound.mk], List.replicate numberOfVoices.toNat voice⟩ := by
  simp [SynthTalkAudioProcessor.constructorBody, foldl_addVoice, Synthesiser.addSound]

theorem foldl_clear (k : Nat) : ∀ (s : Nat) (buffer : AudioBuffer),
    (List.range' s k).foldl (fun b i => b.clear i 0 b.getNumSamples) buffer =
      { buffer with
        data := fun c j =>
          if s ≤ c ∧ c < s + k ∧ j < buffer.numSamples then 0 else buffer.data c j } := by
  induction k with
  | zero =>
    intro s buffer
    cases buffer with
    | mk numChannels numSamples data =>
      simp only [List.range'_zero, List.foldl_nil, AudioBuffer.mk.injEq, true_and]
      funext c j
      rw [if_neg]
      omega
  | succ k ih =>
    intro s buffer
    rw [List.range'_succ, List.foldl_cons, ih]
    simp only [AudioBuffer.clear, AudioBuffer.getNumSamples, AudioBuffer.mk.injEq, true_and]
    funext c j
    by_cases h1 : s + 1 ≤ c ∧ c < s + 1 + k ∧ j < buffer.numSamples
    · have h2 : s ≤ c ∧ c < s + (k + 1) ∧ j < buffer.numSamples := by omega
      rw [if_pos h1, if_pos h2]
    · rw [if_neg h1]
      by_cases h3 : c = s ∧ 0 ≤ j ∧ j < 0 + buffer.numSamples
      · have h2 : s ≤ c ∧ c < s + (k + 1) ∧ j < buffer.numSamples := by omega
        rw [if_pos h3, if_pos h2]
      · have h2 : ¬ (s ≤ c ∧ c < s + (k + 1) ∧ j < buffer.numSamples) := by omega
        rw [if_neg h3, if_neg h2]

theorem clearUnusedOutputChannels_eq (i o : Nat) (buffer : AudioBuffer) :
    clearUnusedOutputChannels i o buffer =
      { buffer with
        data := fun c j =>
          if i ≤ c ∧ c < o ∧ j < buffer.numSamples then 0 else buffer.data c j } := by
  unfold clearUnusedOutputChannels
  rw [foldl_clear]
  simp only [AudioBuffer.mk.injEq, true_and]
  funext c j
  have h : (i ≤ c ∧ c < i + (o - i) ∧ j < buffer.numSamples) ↔
      (i ≤ c ∧ c < o ∧ j < buffer.numSamples) := by omega
  simp only [h]

theorem clearUnusedOutputChannels_of_numSamples_eq_zero (i o : Nat) (buffer : AudioBuffer)
    (h : buffer.numSamples = 0) : clearUnusedOutputChannels i o buffer = buffer := by
  rw [clearUnusedOutputChannels_eq]
  cases buffer with
  | mk numChannels numSamples data =>
    simp only [AudioBuffer.mk.injEq, true_and]
    funext c j
    rw [if_neg]
    simp only at h
    omega

theorem clearUnusedOutputChannels_idem (i o : Nat) (buffer : AudioBuffer) :
    clearUnusedOutputChannels i o (clearUnusedOutputChannels i o buffer) =
      clearUnusedOutputChannels i o buffer := by
  simp only [clearUnusedOutputChannels_eq, AudioBuffer.mk.injEq, true_and]
  funext c j
  by_cases h : i ≤ c ∧ c < o ∧ j < buffer.numSamples
  · simp [h]
  · simp [h]

theorem processBlock_eq (NUMBER_OF_VOICES NUMBER_OF_OSCILLATORS : Nat)
    (renderNextBlock : RenderNextBlock) (p : SynthTalkAudioProcessor)
    (hp : p.apvts.parameters = createParams NUMBER_OF_OSCILLATORS)
    (buffer : AudioBuffer) (midiMessages : MidiBuffer) :
    processBlock NUMBER_OF_VOICES NUMBER_OF_OSCILLATORS renderNextBlock p buffer midiMessages =
      some
        ({ p with
            synth := (renderNextBlock
              (appliedSynth p.apvts.values NUMBER_OF_OSCILLATORS NUMBER_OF_VOICES p.synth)
              (clearUnusedOutputChannels p.totalNumInputChannels p.totalNumOutputChannels
                buffer)
              midiMessages 0 buffer.numSamples).1 },
          (renderNextBlock
              (appliedSynth p.apvts.values NUMBER_OF_OSCILLATORS NUMBER_OF_VOICES p.synth)
              (clearUnusedOutputChannels p.totalNumInputChannels p.totalNumOutputChannels
                buffer)
              midiMessages 0 buffer.numSamples).2) := by
  have hap : p.apvts = ⟨createParams NUMBER_OF_OSCILLATORS, p.apvts.values⟩ := by
    rw [← hp]
  unfold processBlock
  rw [hap, applyParameters_eq]
  simp [clearUnusedOutputChannels_eq, AudioBuffer.getNumSamples]

/-! ### Indexing the declared parameters -/

theorem oscillatorBlock_length (o k : Nat) : (oscillatorBlock o k).length = 12 := rfl

theorem createParams_length (n : Nat) : (createParams n).length = 12 * n := by
  rw [createParams_eq]
  induction n with
  | zero => rfl
  | succ n ih =>
    rw [List.range_succ, List.flatMap_append, List.length_append, ih]
    simp [oscillatorBlock_length, Nat.mul_succ]

theorem createParams_getElem? (n o j : Nat) (ho : o < n) (hj : j < 12) :
    (createParams n)[12 * o + j]? = (oscillatorBlock o (11 * o))[j]? := by
  induction n with
  | zero => omega
  | succ n ih =>
    have hsplit : createParams (n + 1) = createParams n ++ oscillatorBlock n (11 * n) := by
      simp [createParams_eq, List.range_succ, List.flatMap_append]
    rw [hsplit]
    by_cases h : o < n
    · rw [List.getElem?_append_left (by rw [createParams_length]; omega)]
      exact ih h
    · have hon : o = n := by omega
      subst hon
      rw [List.getElem?_append_right (by rw [createParams_length]; omega), createParams_length]
      congr 1
      omega

theorem getParameter_createParams (n o : Nat) (ho : o < n) (p : RangedAudioParameter)
    (hp : p ∈ oscillatorBlock o (11 * o)) :
    getParameter (createParams n) p.paramID = some p :=
  getParameter_of_mem (createParams_keys_nodup n) (mem_createParams.2 ⟨o, ho, hp⟩)

theorem getParameter_oscillatorBlock (n o : Nat) (ho : o < n) :
    getParameter (createParams n) ("OSCWAVETYPE" ++ toString o) =
        some ⟨"OSCWAVETYPE" ++ toString o, 11 * o, "Osc Wave Type",
          .choice ["Sine", "Saw", "Square"] 0⟩ ∧
    getParameter (createParams n) ("OSCON" ++ toString o) =
        some ⟨"OSCON" ++ toString o, 11 * o + 1, "Osc on", .bool false⟩ ∧
    getParameter (createParams n) ("OSCOCTAVE" ++ toString o) =
        some ⟨"OSCOCTAVE" ++ toString o, 11 * o + 2, "Octave", .float ⟨-4, 4, 1, 1⟩ 0⟩ ∧
    getParameter (createParams n) ("OSCSEMI" ++ toString o) =
        some ⟨"OSCSEMI" ++ toString o, 11 * o + 3, "Semi", .float ⟨-12, 12, 1, 1⟩ 0⟩ ∧
    getParameter (createParams n) ("OSCDETUNE" ++ toString o) =
        some ⟨"OSCDETUNE" ++ toString o, 11 * o + 4, "Detune",
          .float ⟨-100, 100, 1, 1⟩ 0⟩ ∧
    getParameter (createParams n) ("OSCGAIN" ++ toString o) =
        some ⟨"OSCGAIN" ++ toString o, 11 * o + 5, "Gain", .float ⟨0, 1, 1/100, 1⟩ (1/2)⟩ ∧
    getParameter (createParams n) ("OSCFMFREQ" ++ toString o) =
        some ⟨"OSCFMFREQ" ++ toString o, 11 * o + 6, "FM Frequency",
          .float ⟨0, 1000, 1/100, 3/10⟩ 5⟩ ∧
    getParameter (createParams n) ("OSCFMDEPTH" ++ toString o) =
        some ⟨"OSCFMDEPTH" ++ toString o, 11 * o + 7, "FM Depth",
          .float ⟨0, 1000, 1/100, 3/10⟩ 50⟩ ∧
    getParameter (createParams n) ("ATTACK" ++ toString o) =
        some ⟨"ATTACK" ++ toString o, 11 * o + 8, "Attack",
          .float ⟨1/10, 1, 1/10, 1⟩ (1/10)⟩ ∧
    getParameter (createParams n) ("DECAY" ++ toString o) =
        some ⟨"DECAY" ++ toString o, 11 * o + 9, "Decay",
          .float ⟨1/10, 1, 1/10, 1⟩ (1/10)⟩ ∧
    getParameter (createParams n) ("SUSTAIN" ++ toString o) =
        some ⟨"SUSTAIN" ++ toString o, 11 * o + 10, "Sustain",
          .float ⟨1/10, 1, 1/10, 1⟩ 1⟩ ∧
    getParameter (createParams n) ("RELEASE" ++ toString o) =
        some ⟨"RELEASE" ++ toString o, 11 * o + 11, "Release",
          .float ⟨1/10, 3, 1/10, 1⟩ (4/10)⟩ := by
  have h := getParameter_createParams n o ho
  refine ⟨?_, ?_, ?_, ?_, ?_, ?_, ?_, ?_, ?_, ?_, ?_, ?_⟩ <;>
    exact h ⟨_, _, _, _⟩ (by simp [oscillatorBlock])

theorem applyParameters_of_parameters (NUMBER_OF_VOICES NUMBER_OF_OSCILLATORS : Nat)
    (p : SynthTalkAudioProcessor)
    (hp : p.apvts.parameters = createParams NUMBER_OF_OSCILLATORS) :
    applyParameters NUMBER_OF_VOICES NUMBER_OF_OSCILLATORS p.apvts p.synth =
      some (appliedSynth p.apvts.values NUMBER_OF_OSCILLATORS NUMBER_OF_VOICES p.synth) := by
  have hap : p.apvts = ⟨createParams NUMBER_OF_OSCILLATORS, p.apvts.values⟩ := by
    rw [← hp]
  rw [hap]
  exact applyParameters_eq _ _ _ _

theorem processBlock_of_silent_call (NUMBER_OF_VOICES NUMBER_OF_OSCILLATORS : Nat)
    (renderNextBlock : RenderNextBlock) (p : SynthTalkAudioProcessor)
    (buffer : AudioBuffer) (midiMessages : MidiBuffer)
    (hp : p.apvts.parameters = createParams NUMBER_OF_OSCILLATORS)
    (hsilent : ∀ synth,
      applyParameters NUMBER_OF_VOICES NUMBER_OF_OSCILLATORS p.apvts p.synth = some synth →
      (renderNextBlock synth
          (clearUnusedOutputChannels p.totalNumInputChannels p.totalNumOutputChannels buffer)
          midiMessages 0 buffer.getNumSamples).2 =
        clearUnusedOutputChannels p.totalNumInputChannels p.totalNumOutputChannels buffer) :
    ∃ p₁, processBlock NUMBER_OF_VOICES NUMBER_OF_OSCILLATORS renderNextBlock p buffer
          midiMessages =
        some (p₁, clearUnusedOutputChannels p.totalNumInputChannels
          p.totalNumOutputChannels buffer) ∧
      p₁.apvts = p.apvts ∧ p₁.totalNumInputChannels = p.totalNumInputChannels ∧
      p₁.totalNumOutputChannels = p.totalNumOutputChannels := by
  have h := hsilent _ (applyParameters_of_parameters NUMBER_OF_VOICES NUMBER_OF_OSCILLATORS p hp)
  simp only [AudioBuffer.getNumSamples] at h
  refine ⟨{ p with
      synth := (renderNextBlock
        (appliedSynth p.apvts.values NUMBER_OF_OSCILLATORS NUMBER_OF_VOICES p.synth)
        (clearUnusedOutputChannels p.totalNumInputChannels p.totalNumOutputChannels buffer)
        midiMessages 0 buffer.numSamples).1 }, ?_, rfl, rfl, rfl⟩
  rw [processBlock_eq _ _ _ _ hp, h]

theorem declared_key_mem (n o : Nat) (ho : o < n) (name : String)
    (hname : name ∈ parameterNames) :
    ∃ p ∈ createParams n, p.paramID = name ++ toString o := by
  have hk : name ++ toString o ∈ (oscillatorBlock o (11 * o)).map (fun p => p.paramID) := by
    rw [oscillatorBlock_keys]
    exact List.mem_map_of_mem _ hname
  obtain ⟨p, hp, hpk⟩ := List.mem_map.1 hk
  exact ⟨p, mem_createParams.2 ⟨o, ho, hp⟩, hpk⟩

/-- The loop of `processBlock` updates exactly the voices whose index is below
`NUMBER_OF_VOICES`: those get the snapshot settings, the others are left as they
were. -/
theorem applyParameters_voice (NUMBER_OF_VOICES NUMBER_OF_OSCILLATORS : Nat)
    (snapshot : String → ℚ) (synth : Synthesiser) (i : Nat) :
    ∃ synth', applyParameters NUMBER_OF_VOICES NUMBER_OF_OSCILLATORS
        ⟨createParams NUMBER_OF_OSCILLATORS, snapshot⟩ synth = some synth' ∧
      synth'.getVoice i =
        (synth.getVoice i).map (fun voice =>
          if i < NUMBER_OF_VOICES then appliedVoice snapshot NUMBER_OF_OSCILLATORS voice
          else voice) :=
  ⟨_, applyParameters_eq _ _ _ _, getVoice_appliedSynth _ _ _ _ _⟩

theorem voiceOnRender_silent_at_default (synth : Synthesiser)
    (h : applyParameters 1 1 defaultProcessor.apvts defaultProcessor.synth = some synth) :
    (voiceOnRender synth
        (clearUnusedOutputChannels defaultProcessor.totalNumInputChannels
          defaultProcessor.totalNumOutputChannels onesBuffer)
        [] 0 onesBuffer.getNumSamples).2 =
      clearUnusedOutputChannels defaultProcessor.totalNumInputChannels
        defaultProcessor.totalNumOutputChannels onesBuffer := by
  have hsy : defaultProcessor.synth = ⟨[SynthSound.mk], [zeroVoice]⟩ := by
    simp [defaultProcessor, constructorBody_synth, List.replicate]
  have hval : defaultProcessor.apvts.values ("OSCON" ++ toString 0) = 0 := by
    simp only [defaultProcessor, SynthTalkAudioProcessor.constructorBody,
      AudioProcessorValueTreeState.create]
    rw [(getParameter_oscillatorBlock 1 0 (by decide)).2.1]
    rfl
  rw [applyParameters_of_parameters 1 1 defaultProcessor rfl, Option.some.injEq] at h
  subst h
  have hlevel : (match (appliedSynth defaultProcessor.apvts.values 1 1
        defaultProcessor.synth).getVoice 0 with
      | some voice => (voice.getOscillator 0).oscOn
      | none => (0 : ℚ)) = 0 := by
    rw [getVoice_appliedSynth, hsy]
    simp [Synthesiser.getVoice, appliedVoice, SynthVoice.getOscillator, appliedOscillator,
      hval]
  simp only [voiceOnRender, hlevel, add_zero, ite_self]

theorem voiceOnRender_sounds :
    (voiceOnRender ⟨[], [⟨fun _ => ⟨0, 1, 0, 0, 0, 0, 0, 0, 0, 0, 0, 0⟩⟩]⟩
      ⟨1, 1, fun _ _ => 0⟩ [] 0 1).2 ≠ ⟨1, 1, fun _ _ => 0⟩ := by
  intro h
  have h' := congrFun (congrFun (congrArg AudioBuffer.data h) 0) 0
  simp [voiceOnRender, Synthesiser.getVoice, SynthVoice.getOscillator] at h'

/-! ## The claims -/

/-- C1, at the failing input `NUMBER_OF_VOICES = 2`, `NUMBER_OF_OSCILLATORS = 1`,
a processor constructed with three voices and a snapshot storing `1` under every
key: the parameter-application loop of `processBlock` returns, the pool holds the
three voices the constructor added, voices 0 and 1 carry the snapshot gain `1`,
but voice 2 still has gain `0`, not the value stored under `OSCGAIN0`: the loop
is bounded by the ambient constant, not by the constructed voice count. -/
theorem C1_voice_past_NUMBER_OF_VOICES_not_updated :
    ∃ synth, applyParameters 2 1 threeVoiceProcessor.apvts threeVoiceProcessor.synth =
        some synth ∧
      threeVoiceProcessor.numberOfVoices = 3 ∧
      synth.voices.length = 3 ∧
      threeVoiceProcessor.apvts.getRawParameterValue "OSCGAIN0" = some 1 ∧
      (synth.getVoice 0).map (fun v => (v.getOscillator 0).gain) = some 1 ∧
      (synth.getVoice 1).map (fun v => (v.getOscillator 0).gain) = some 1 ∧
      (synth.getVoice 2).map (fun v => (v.getOscillator 0).gain) = some 0 := by
  have hap : threeVoiceProcessor.apvts = ⟨createParams 1, fun _ => 1⟩ := rfl
  have hsy : threeVoiceProcessor.synth =
      ⟨[SynthSound.mk], [zeroVoice, zeroVoice, zeroVoice]⟩ := by
    simp [threeVoiceProcessor, SynthTalkAudioProcessor.withSnapshot, constructorBody_synth,
      List.replicate]
  refine ⟨appliedSynth (fun _ => 1) 1 2 threeVoiceProcessor.synth, ?_, rfl, ?_, ?_, ?_, ?_, ?_⟩
  · rw [hap]; exact applyParameters_eq 2 1 _ _
  · simp [appliedSynth, hsy]
  · rw [hap]
    exact getRawParameterValue_declared 1 0 (by decide) _ "OSCGAIN" (by decide)
  · rw [getVoice_appliedSynth, hsy]
    simp [Synthesiser.getVoice, appliedVoice, SynthVoice.getOscillator, appliedOscillator]
  · rw [getVoice_appliedSynth, hsy]
    simp [Synthesiser.getVoice, appliedVoice, SynthVoice.getOscillator, appliedOscillator]
  · rw [getVoice_appliedSynth, hsy]
    simp [Synthesiser.getVoice, zeroVoice, SynthVoice.getOscillator, zeroOscillator]

/-- C2, at the failing input `NUMBER_OF_VOICES = 1`, `NUMBER_OF_OSCILLATORS = 1`,
one zero voice and a snapshot storing `1` under every key: the parameter-application
loop of `processBlock` returns, the snapshot holds `1` under `OSCFMFREQ0` and
`OSCFMDEPTH0`, and yet the FM frequency and depth of voice 0, oscillator 0 are
still `0` after the loop: the FM values are fetched but never handed to the
oscillator. -/
theorem C2_fm_not_applied :
    ∃ synth, applyParameters 1 1 oneVoiceProcessor.apvts oneVoiceProcessor.synth =
        some synth ∧
      oneVoiceProcessor.apvts.getRawParameterValue "OSCFMFREQ0" = some 1 ∧
      oneVoiceProcessor.apvts.getRawParameterValue "OSCFMDEPTH0" = some 1 ∧
      (synth.getVoice 0).map (fun v => (v.getOscillator 0).fmFreq) = some 0 ∧
      (synth.getVoice 0).map (fun v => (v.getOscillator 0).fmDepth) = some 0 := by
  have hap : oneVoiceProcessor.apvts = ⟨createParams 1, fun _ => 1⟩ := rfl
  have hsy : oneVoiceProcessor.synth = ⟨[SynthSound.mk], [zeroVoice]⟩ := by
    simp [oneVoiceProcessor, SynthTalkAudioProcessor.withSnapshot, constructorBody_synth,
      List.replicate]
  refine ⟨appliedSynth (fun _ => 1) 1 1 oneVoiceProcessor.synth, ?_, ?_, ?_, ?_, ?_⟩
  · rw [hap]; exact applyParameters_eq 1 1 _ _
  · rw [hap]
    exact getRawParameterValue_declared 1 0 (by decide) _ "OSCFMFREQ" (by decide)
  · rw [hap]
    exact getRawParameterValue_declared 1 0 (by decide) _ "OSCFMDEPTH" (by decide)
  · rw [getVoice_appliedSynth, hsy]
    simp [Synthesiser.getVoice, appliedVoice, SynthVoice.getOscillator, appliedOscillator,
      zeroVoice, zeroOscillator]
  · rw [getVoice_appliedSynth, hsy]
    simp [Synthesiser.getVoice, appliedVoice, SynthVoice.getOscillator, appliedOscillator,
      zeroVoice, zeroOscillator]

/-- The frame of the parameter-application loop on the FM settings: for every
snapshot and every voice pool the loop returns, keeps the number of voices, and
no oscillator of any voice has its FM modulator frequency or depth changed. -/
theorem applyParameters_fm_unchanged (NUMBER_OF_VOICES NUMBER_OF_OSCILLATORS : Nat)
    (snapshot : String → ℚ) (synth : Synthesiser) :
    ∃ synth', applyParameters NUMBER_OF_VOICES NUMBER_OF_OSCILLATORS
        ⟨createParams NUMBER_OF_OSCILLATORS, snapshot⟩ synth = some synth' ∧
      synth'.voices.length = synth.voices.length ∧
      ∀ i o : Nat,
        (synth'.getVoice i).map (fun v => (v.getOscillator o).fmFreq) =
            (synth.getVoice i).map (fun v => (v.getOscillator o).fmFreq) ∧
        (synth'.getVoice i).map (fun v => (v.getOscillator o).fmDepth) =
            (synth.getVoice i).map (fun v => (v.getOscillator o).fmDepth) := by
  refine ⟨_, applyParameters_eq _ _ _ _, by simp [appliedSynth], ?_⟩
  intro i o
  rw [getVoice_appliedSynth]
  cases synth.getVoice i with
  | none => simp
  | some v =>
    by_cases h1 : i < NUMBER_OF_VOICES <;> by_cases h2 : o < NUMBER_OF_OSCILLATORS <;>
      simp [h1, h2, appliedVoice, appliedOscillator, SynthVoice.getOscillator]

/-- C3: for every value of `NUMBER_OF_OSCILLATORS` (also ten or more, where the
decimal index has several digits) the keys of the parameters `createParams`
declares, each a parameter name followed by the decimal oscillator index, are
pairwise distinct. -/
theorem C3_declared_keys_pairwise_distinct (NUMBER_OF_OSCILLATORS : Nat) :
    (createParams NUMBER_OF_OSCILLATORS).map (fun p => p.paramID) =
        (List.range NUMBER_OF_OSCILLATORS).flatMap
          (fun o => parameterNames.map (fun name => name ++ toString o)) ∧
      ((createParams NUMBER_OF_OSCILLATORS).map (fun p => p.paramID)).Nodup := by
  refine ⟨?_, createParams_keys_nodup _⟩
  rw [createParams_eq, List.map_flatMap]
  rfl

/-- C4: for every oscillator index `o < NUMBER_OF_OSCILLATORS` the parameter
declared under each key has the domain of the data model: `OSCWAVETYPEo` the
choices Sine, Saw, Square in that order; `OSCOCTAVEo` the range [-4, 4] and
`OSCSEMIo` the range [-12, 12], both with step 1 and an integer start, so that
every stepped value is an integer; `OSCDETUNEo` the range [-100, 100];
`OSCGAINo` the range [0, 1]; `ATTACKo`, `DECAYo`, `SUSTAINo`, `RELEASEo` a range
whose lower bound is strictly positive and whose upper bound is a finite number
above it. -/
theorem C4_declared_domains (NUMBER_OF_OSCILLATORS o : Nat)
    (ho : o < NUMBER_OF_OSCILLATORS) :
    (getParameter (createParams NUMBER_OF_OSCILLATORS) ("OSCWAVETYPE" ++ toString o)).map
        (fun p => p.domain) = some (.choice ["Sine", "Saw", "Square"] 0) ∧
    (∀ name ∈ ["OSCOCTAVE", "OSCSEMI"], ∃ r d,
      (getParameter (createParams NUMBER_OF_OSCILLATORS) (name ++ toString o)).map
          (fun p => p.domain) = some (.float r d) ∧
        r.interval = 1 ∧ ∀ k : Nat, ∃ z : Int, r.start + k * r.interval = z) ∧
    (∃ d, (getParameter (createParams NUMBER_OF_OSCILLATORS) ("OSCOCTAVE" ++ toString o)).map
        (fun p => p.domain) = some (.float ⟨-4, 4, 1, 1⟩ d)) ∧
    (∃ d, (getParameter (createParams NUMBER_OF_OSCILLATORS) ("OSCSEMI" ++ toString o)).map
        (fun p => p.domain) = some (.float ⟨-12, 12, 1, 1⟩ d)) ∧
    (∃ step skew d,
      (getParameter (createParams NUMBER_OF_OSCILLATORS) ("OSCDETUNE" ++ toString o)).map
        (fun p => p.domain) = some (.float ⟨-100, 100, step, skew⟩ d)) ∧
    (∃ step skew d,
      (getParameter (createParams NUMBER_OF_OSCILLATORS) ("OSCGAIN" ++ toString o)).map
        (fun p => p.domain) = some (.float ⟨0, 1, step, skew⟩ d)) ∧
    (∀ name ∈ ["ATTACK", "DECAY", "SUSTAIN", "RELEASE"], ∃ r d,
      (getParameter (createParams NUMBER_OF_OSCILLATORS) (name ++ toString o)).map
          (fun p => p.domain) = some (.float r d) ∧
        0 < r.start ∧ r.start ≤ r.stop ∧ r.stop ≤ 3) := by
  obtain ⟨h0, -, h2, h3, h4, h5, -, -, h8, h9, h10, h11⟩ :=
    getParameter_oscillatorBlock NUMBER_OF_OSCILLATORS o ho
  refine ⟨by rw [h0]; rfl, ?_, ⟨_, by rw [h2]; rfl⟩, ⟨_, by rw [h3]; rfl⟩,
    ⟨_, _, _, by rw [h4]; rfl⟩, ⟨_, _, _, by rw [h5]; rfl⟩, ?_⟩
  · intro name hname
    simp only [List.mem_cons, List.mem_singleton, List.not_mem_nil, or_false] at hname
    rcases hname with rfl | rfl
    · refine ⟨_, _, by rw [h2]; rfl, rfl, fun k => ⟨-4 + k, ?_⟩⟩
      push_cast; ring
    · refine ⟨_, _, by rw [h3]; rfl, rfl, fun k => ⟨-12 + k, ?_⟩⟩
      push_cast; ring
  · intro name hname
    simp only [List.mem_cons, List.mem_singleton, List.not_mem_nil, or_false] at hname
    rcases hname with rfl | rfl | rfl | rfl
    · exact ⟨_, _, by rw [h8]; rfl, by norm_num, by norm_num, by norm_num⟩
    · exact ⟨_, _, by rw [h9]; rfl, by norm_num, by norm_num, by norm_num⟩
    · exact ⟨_, _, by rw [h10]; rfl, by norm_num, by norm_num, by norm_num⟩
    · exact ⟨_, _, by rw [h11]; rfl, by norm_num, by norm_num, by norm_num⟩

/-- C4 at `NUMBER_OF_OSCILLATORS = 3`, oscillator 2. -/
theorem C4_declared_domains_witness :
    2 < 3 ∧
    (getParameter (createParams 3) ("OSCWAVETYPE" ++ toString 2)).map
        (fun p => p.domain) = some (.choice ["Sine", "Saw", "Square"] 0) ∧
    (∀ name ∈ ["OSCOCTAVE", "OSCSEMI"], ∃ r d,
      (getParameter (createParams 3) (name ++ toString 2)).map
          (fun p => p.domain) = some (.float r d) ∧
        r.interval = 1 ∧ ∀ k : Nat, ∃ z : Int, r.start + k * r.interval = z) ∧
    (∃ d, (getParameter (createParams 3) ("OSCOCTAVE" ++ toString 2)).map
        (fun p => p.domain) = some (.float ⟨-4, 4, 1, 1⟩ d)) ∧
    (∃ d, (getParameter (createParams 3) ("OSCSEMI" ++ toString 2)).map
        (fun p => p.domain) = some (.float ⟨-12, 12, 1, 1⟩ d)) ∧
    (∃ step skew d,
      (getParameter (createParams 3) ("OSCDETUNE" ++ toString 2)).map
        (fun p => p.domain) = some (.float ⟨-100, 100, step, skew⟩ d)) ∧
    (∃ step skew d,
      (getParameter (createParams 3) ("OSCGAIN" ++ toString 2)).map
        (fun p => p.domain) = some (.float ⟨0, 1, step, skew⟩ d)) ∧
    (∀ name ∈ ["ATTACK", "DECAY", "SUSTAIN", "RELEASE"], ∃ r d,
      (getParameter (createParams 3) (name ++ toString 2)).map
          (fun p => p.domain) = some (.float r d) ∧
        0 < r.start ∧ r.start ≤ r.stop ∧ r.stop ≤ 3) :=
  ⟨by decide, C4_declared_domains 3 2 (by decide)⟩

/-- C5, refuted at `numberOfVoices = 0`: construction reports no error and yields
a processor whose pool holds zero voices. -/
theorem C5_zero_voices_counterexample :
    ∃ p, SynthTalkAudioProcessor.construct 1 0 2 zeroVoice 0 = Except.ok p ∧
      p.synth.voices.length = 0 := by
  refine ⟨_, rfl, ?_⟩
  simp [constructorBody_synth]

/-- C5, amended: constructing the processor with a voice count
`numberOfVoices ≤ 0` reports no error; it yields a processor that stores the
count as given, declares the parameters of `createParams`, and whose synthesiser
holds one sound and zero voices. -/
theorem C5_nonpositive_voice_count_constructs (NUMBER_OF_OSCILLATORS : Nat)
    (totalNumInputChannels totalNumOutputChannels : Nat) (newSynthVoice : SynthVoice)
    (numberOfVoices : Int) (h : numberOfVoices ≤ 0) :
    ∃ p, SynthTalkAudioProcessor.construct NUMBER_OF_OSCILLATORS totalNumInputChannels
        totalNumOutputChannels newSynthVoice numberOfVoices = Except.ok p ∧
      p.numberOfVoices = numberOfVoices ∧
      p.apvts.parameters = createParams NUMBER_OF_OSCILLATORS ∧
      p.synth.sounds.length = 1 ∧
      p.synth.voices = [] := by
  refine ⟨_, rfl, rfl, rfl, ?_, ?_⟩
  · simp [constructorBody_synth]
  · simp [constructorBody_synth, Int.toNat_of_nonpos h]

/-- C5, amended, at `numberOfVoices = -2` with three oscillators per voice. -/
theorem C5_nonpositive_voice_count_constructs_witness :
    ∃ p, SynthTalkAudioProcessor.construct 3 0 2 zeroVoice (-2) = Except.ok p ∧
      p.numberOfVoices = -2 ∧
      p.apvts.parameters = createParams 3 ∧
      p.synth.sounds.length = 1 ∧
      p.synth.voices = [] :=
  C5_nonpositive_voice_count_constructs 3 0 2 zeroVoice (-2) (by decide)

/-- C6, refuted at a two-channel buffer of zero frames, one zero voice, a snapshot
storing `1` under every key and a render routine that changes nothing:
`processBlock` returns, and the gain of voice 0, oscillator 0, which was `0`
before the call, is `1` after it, so the engine state has changed. -/
theorem C6_zero_frames_counterexample :
    ∃ r, processBlock 1 1 silentRender oneVoiceProcessor emptyBuffer [] = some r ∧
      emptyBuffer.getNumSamples = 0 ∧
      (oneVoiceProcessor.synth.getVoice 0).map (fun v => (v.getOscillator 0).gain) = some 0 ∧
      (r.1.synth.getVoice 0).map (fun v => (v.getOscillator 0).gain) = some 1 := by
  have hsy : oneVoiceProcessor.synth = ⟨[SynthSound.mk], [zeroVoice]⟩ := by
    simp [oneVoiceProcessor, SynthTalkAudioProcessor.withSnapshot, constructorBody_synth,
      List.replicate]
  refine ⟨_, processBlock_eq 1 1 silentRender oneVoiceProcessor rfl emptyBuffer [], rfl, ?_, ?_⟩
  · rw [hsy]
    simp [Synthesiser.getVoice, zeroVoice, SynthVoice.getOscillator, zeroOscillator]
  · simp only [silentRender]
    rw [getVoice_appliedSynth, hsy]
    simp [Synthesiser.getVoice, appliedVoice, SynthVoice.getOscillator, appliedOscillator,
      oneVoiceProcessor, SynthTalkAudioProcessor.withSnapshot]

/-- C6, amended: when `processBlock` is called with a buffer of zero frames it
returns; its clearing loop writes no sample, so `renderNextBlock` receives the
buffer exactly as it was passed in and is asked for zero frames; the
parameter-application loop still runs, and for every voice index below
`NUMBER_OF_VOICES` and oscillator index below `NUMBER_OF_OSCILLATORS` it replaces
the wave type, on flag, tuning, gain and ADSR settings by the snapshot values
(the FM settings stay as they were). -/
theorem C6_zero_frames_applies_parameters (NUMBER_OF_VOICES NUMBER_OF_OSCILLATORS : Nat)
    (renderNextBlock : RenderNextBlock) (p : SynthTalkAudioProcessor)
    (buffer : AudioBuffer) (midiMessages : MidiBuffer)
    (hp : p.apvts.parameters = createParams NUMBER_OF_OSCILLATORS)
    (hzero : buffer.getNumSamples = 0) :
    ∃ synth, applyParameters NUMBER_OF_VOICES NUMBER_OF_OSCILLATORS p.apvts p.synth =
        some synth ∧
      processBlock NUMBER_OF_VOICES NUMBER_OF_OSCILLATORS renderNextBlock p buffer
          midiMessages =
        some ({ p with synth := (renderNextBlock synth buffer midiMessages 0 0).1 },
          (renderNextBlock synth buffer midiMessages 0 0).2) ∧
      ∀ i o : Nat, i < NUMBER_OF_VOICES → o < NUMBER_OF_OSCILLATORS →
        (synth.getVoice i).map (fun v => v.getOscillator o) =
          (p.synth.getVoice i).map
            (fun v => appliedOscillator p.apvts.values o (v.getOscillator o)) := by
  have hap : p.apvts = ⟨createParams NUMBER_OF_OSCILLATORS, p.apvts.values⟩ := by
    rw [← hp]
  have hzero' : buffer.numSamples = 0 := hzero
  refine ⟨appliedSynth p.apvts.values NUMBER_OF_OSCILLATORS NUMBER_OF_VOICES p.synth,
    ?_, ?_, ?_⟩
  · rw [hap]; exact applyParameters_eq _ _ _ _
  · rw [processBlock_eq _ _ _ _ hp,
      clearUnusedOutputChannels_of_numSamples_eq_zero _ _ _ hzero', hzero']
  · intro i o hi ho
    rw [getVoice_appliedSynth]
    cases p.synth.getVoice i with
    | none => rfl
    | some v => simp [hi, ho, appliedVoice, SynthVoice.getOscillator]

/-- C6, amended, at a two-channel buffer of zero frames and one zero voice. -/
theorem C6_zero_frames_applies_parameters_witness :
    oneVoiceProcessor.apvts.parameters = createParams 1 ∧ emptyBuffer.getNumSamples = 0 ∧
    ∃ synth, applyParameters 1 1 oneVoiceProcessor.apvts oneVoiceProcessor.synth =
        some synth ∧
      processBlock 1 1 silentRender oneVoiceProcessor emptyBuffer [] =
        some ({ oneVoiceProcessor with
                synth := (silentRender synth emptyBuffer [] 0 0).1 },
          (silentRender synth emptyBuffer [] 0 0).2) ∧
      ∀ i o : Nat, i < 1 → o < 1 →
        (synth.getVoice i).map (fun v => v.getOscillator o) =
          (oneVoiceProcessor.synth.getVoice i).map
            (fun v => appliedOscillator oneVoiceProcessor.apvts.values o (v.getOscillator o)) :=
  ⟨rfl, rfl, C6_zero_frames_applies_parameters 1 1 silentRender oneVoiceProcessor emptyBuffer []
    rfl rfl⟩

/-- C7, at the failing input: the snapshot stores `1/2` under every key when
`getStateInformation` is called, the parameters are then changed to `9/10`, and
`setStateInformation` is called with the bytes produced. No byte was produced,
and the value under `OSCGAIN0` is still `9/10`, not the saved `1/2`. -/
theorem C7_round_trip_not_restored :
    getStateInformation (oneVoiceProcessor.withSnapshot halfSnapshot) [] = [] ∧
    ((oneVoiceProcessor.withSnapshot halfSnapshot).apvts.getRawParameterValue "OSCGAIN0" =
      some (1 / 2)) ∧
    (setStateInformation (oneVoiceProcessor.withSnapshot otherSnapshot)
        (getStateInformation (oneVoiceProcessor.withSnapshot halfSnapshot) [])
        0).apvts.getRawParameterValue "OSCGAIN0" = some (9 / 10) ∧
    (setStateInformation (oneVoiceProcessor.withSnapshot otherSnapshot)
        (getStateInformation (oneVoiceProcessor.withSnapshot halfSnapshot) [])
        0).apvts.values ≠ (oneVoiceProcessor.withSnapshot halfSnapshot).apvts.values := by
  have h1 : (oneVoiceProcessor.withSnapshot halfSnapshot).apvts =
      ⟨createParams 1, halfSnapshot⟩ := rfl
  have h2 : (setStateInformation (oneVoiceProcessor.withSnapshot otherSnapshot)
        (getStateInformation (oneVoiceProcessor.withSnapshot halfSnapshot) []) 0).apvts =
      ⟨createParams 1, otherSnapshot⟩ := rfl
  refine ⟨rfl, ?_, ?_, ?_⟩
  · rw [h1]
    exact getRawParameterValue_declared 1 0 (by decide) _ "OSCGAIN" (by decide)
  · rw [h2]
    exact getRawParameterValue_declared 1 0 (by decide) _ "OSCGAIN" (by decide)
  · rw [h1, h2]
    intro h
    have h' := congrFun h "OSCGAIN0"
    simp only [otherSnapshot, halfSnapshot] at h'
    norm_num at h'

/-- C8, refuted at a processor with two input and two output channels, a
one-frame buffer holding `1` in both channels, no MIDI event and a render routine
that adds nothing: after `processBlock` both channels still hold `1`, not zero. -/
theorem C8_input_channels_not_cleared_counterexample :
    (∀ synth buffer n, (silentRender synth buffer [] 0 n).2 = buffer) ∧
    ∃ r, processBlock 1 1 silentRender stereoThroughProcessor onesBuffer [] = some r ∧
      r.2.data 0 0 = 1 ∧ r.2.data 1 0 = 1 := by
  refine ⟨fun _ _ _ => rfl, _,
    processBlock_eq 1 1 silentRender stereoThroughProcessor rfl onesBuffer [], ?_, ?_⟩
  · simp [silentRender, clearUnusedOutputChannels_eq, stereoThroughProcessor,
      SynthTalkAudioProcessor.constructorBody, onesBuffer]
  · simp [silentRender, clearUnusedOutputChannels_eq, stereoThroughProcessor,
      SynthTalkAudioProcessor.constructorBody, onesBuffer]

/-- C8, amended: if the render call of this block contributes nothing (for the
synthesiser state the parameter loop produced and the buffer the clearing loop
produced, `renderNextBlock` returns that buffer as it received it), then
`processBlock` returns a buffer of the same size in which every channel `c` with
`totalNumInputChannels ≤ c < totalNumOutputChannels` holds only zeros and every
other channel holds its initial content; in particular, with no input channel
and a buffer of at most `totalNumOutputChannels` channels, every channel holds
only zeros; and if the render call of a second `processBlock` on the result
contributes nothing either, that second call gives the same buffer. Nothing is
assumed about the render routine at other states, buffers or frame counts. -/
theorem C8_silence_clears_unused_outputs (NUMBER_OF_VOICES NUMBER_OF_OSCILLATORS : Nat)
    (renderNextBlock : RenderNextBlock) (p : SynthTalkAudioProcessor)
    (buffer : AudioBuffer) (midiMessages : MidiBuffer)
    (hp : p.apvts.parameters = createParams NUMBER_OF_OSCILLATORS)
    (hsilent : ∀ synth,
      applyParameters NUMBER_OF_VOICES NUMBER_OF_OSCILLATORS p.apvts p.synth = some synth →
      (renderNextBlock synth
          (clearUnusedOutputChannels p.totalNumInputChannels p.totalNumOutputChannels buffer)
          midiMessages 0 buffer.getNumSamples).2 =
        clearUnusedOutputChannels p.totalNumInputChannels p.totalNumOutputChannels buffer) :
    ∃ p₁ b₁, processBlock NUMBER_OF_VOICES NUMBER_OF_OSCILLATORS renderNextBlock p buffer
          midiMessages = some (p₁, b₁) ∧
      b₁.numChannels = buffer.numChannels ∧ b₁.numSamples = buffer.numSamples ∧
      (∀ c j : Nat, p.totalNumInputChannels ≤ c → c < p.totalNumOutputChannels →
        j < buffer.numSamples → b₁.data c j = 0) ∧
      (∀ c j : Nat, ¬ (p.totalNumInputChannels ≤ c ∧ c < p.totalNumOutputChannels) →
        b₁.data c j = buffer.data c j) ∧
      (p.totalNumInputChannels = 0 → buffer.numChannels ≤ p.totalNumOutputChannels →
        ∀ c j : Nat, c < buffer.numChannels → j < buffer.numSamples → b₁.data c j = 0) ∧
      ((∀ synth,
          applyParameters NUMBER_OF_VOICES NUMBER_OF_OSCILLATORS p₁.apvts p₁.synth =
            some synth →
          (renderNextBlock synth
              (clearUnusedOutputChannels p₁.totalNumInputChannels p₁.totalNumOutputChannels
                b₁)
              midiMessages 0 b₁.getNumSamples).2 =
            clearUnusedOutputChannels p₁.totalNumInputChannels p₁.totalNumOutputChannels
              b₁) →
        ∃ p₂, processBlock NUMBER_OF_VOICES NUMBER_OF_OSCILLATORS renderNextBlock p₁ b₁
          midiMessages = some (p₂, b₁)) := by
  obtain ⟨p₁, h1, ha, hi, ho⟩ := processBlock_of_silent_call NUMBER_OF_VOICES
    NUMBER_OF_OSCILLATORS renderNextBlock p buffer midiMessages hp hsilent
  have hclear : ∀ c j : Nat,
      (clearUnusedOutputChannels p.totalNumInputChannels p.totalNumOutputChannels
        buffer).data c j =
      if p.totalNumInputChannels ≤ c ∧ c < p.totalNumOutputChannels ∧ j < buffer.numSamples
      then 0 else buffer.data c j := by
    intro c j
    rw [clearUnusedOutputChannels_eq]
  refine ⟨p₁, _, h1, ?_, ?_, ?_, ?_, ?_, ?_⟩
  · rw [clearUnusedOutputChannels_eq]
  · rw [clearUnusedOutputChannels_eq]
  · intro c j h1 h2 h3
    rw [hclear, if_pos ⟨h1, h2, h3⟩]
  · intro c j h
    rw [hclear, if_neg (fun h' => h ⟨h'.1, h'.2.1⟩)]
  · intro h0 hle c j hc hj
    rw [hclear, if_pos ⟨by omega, by omega, hj⟩]
  · intro hsecond
    obtain ⟨p₂, h2, -⟩ := processBlock_of_silent_call NUMBER_OF_VOICES
      NUMBER_OF_OSCILLATORS renderNextBlock p₁
      (clearUnusedOutputChannels p.totalNumInputChannels p.totalNumOutputChannels buffer)
      midiMessages (by rw [ha]; exact hp) hsecond
    rw [hi, ho, clearUnusedOutputChannels_idem] at h2
    exact ⟨p₂, h2⟩

/-- C8, amended, at the processor without input channels and with every parameter
at its default, the one-frame buffer of ones, no MIDI event, and the
state-dependent render routine `voiceOnRender`: the render call of the block is
silent because `OSCON0` is off, although the routine does sound for other
synthesiser states. -/
theorem C8_silence_clears_unused_outputs_witness :
    defaultProcessor.apvts.parameters = createParams 1 ∧
    (∀ synth,
      applyParameters 1 1 defaultProcessor.apvts defaultProcessor.synth = some synth →
      (voiceOnRender synth
          (clearUnusedOutputChannels defaultProcessor.totalNumInputChannels
            defaultProcessor.totalNumOutputChannels onesBuffer)
          [] 0 onesBuffer.getNumSamples).2 =
        clearUnusedOutputChannels defaultProcessor.totalNumInputChannels
          defaultProcessor.totalNumOutputChannels onesBuffer) ∧
    (∃ synth b n, (voiceOnRender synth b [] 0 n).2 ≠ b) ∧
    ∃ p₁ b₁, processBlock 1 1 voiceOnRender defaultProcessor onesBuffer [] = some (p₁, b₁) ∧
      b₁.numChannels = onesBuffer.numChannels ∧ b₁.numSamples = onesBuffer.numSamples ∧
      (∀ c j : Nat, defaultProcessor.totalNumInputChannels ≤ c →
        c < defaultProcessor.totalNumOutputChannels →
        j < onesBuffer.numSamples → b₁.data c j = 0) ∧
      (∀ c j : Nat, ¬ (defaultProcessor.totalNumInputChannels ≤ c ∧
          c < defaultProcessor.totalNumOutputChannels) →
        b₁.data c j = onesBuffer.data c j) ∧
      (defaultProcessor.totalNumInputChannels = 0 →
        onesBuffer.numChannels ≤ defaultProcessor.totalNumOutputChannels →
        ∀ c j : Nat, c < onesBuffer.numChannels → j < onesBuffer.numSamples →
          b₁.data c j = 0) ∧
      ((∀ synth,
          applyParameters 1 1 p₁.apvts p₁.synth = some synth →
          (voiceOnRender synth
              (clearUnusedOutputChannels p₁.totalNumInputChannels p₁.totalNumOutputChannels
                b₁)
              [] 0 b₁.getNumSamples).2 =
            clearUnusedOutputChannels p₁.totalNumInputChannels p₁.totalNumOutputChannels
              b₁) →
        ∃ p₂, processBlock 1 1 voiceOnRender p₁ b₁ [] = some (p₂, b₁)) :=
  ⟨rfl, voiceOnRender_silent_at_default,
    ⟨⟨[], [⟨fun _ => ⟨0, 1, 0, 0, 0, 0, 0, 0, 0, 0, 0, 0⟩⟩]⟩, ⟨1, 1, fun _ _ => 0⟩, 1,
      voiceOnRender_sounds⟩,
    C8_silence_clears_unused_outputs 1 1 voiceOnRender defaultProcessor onesBuffer [] rfl
      voiceOnRender_silent_at_default⟩

/-- C9: for every oscillator index `o < NUMBER_OF_OSCILLATORS`, each of the twelve
keys `processBlock` looks up for `o` is the key of a parameter `createParams`
declares, its lookup is not the missing-parameter result, and so the loop body
of `processBlock` for that oscillator runs to its end. -/
theorem C9_looked_up_keys_are_declared (NUMBER_OF_OSCILLATORS o : Nat)
    (ho : o < NUMBER_OF_OSCILLATORS) (snapshot : String → ℚ) (voice : SynthVoice) :
    (∀ key ∈ ["OSCWAVETYPE" ++ toString o, "OSCON" ++ toString o,
          "OSCOCTAVE" ++ toString o, "OSCSEMI" ++ toString o, "OSCDETUNE" ++ toString o,
          "OSCGAIN" ++ toString o, "ATTACK" ++ toString o, "DECAY" ++ toString o,
          "SUSTAIN" ++ toString o, "RELEASE" ++ toString o, "OSCFMDEPTH" ++ toString o,
          "OSCFMFREQ" ++ toString o],
      (∃ p ∈ createParams NUMBER_OF_OSCILLATORS, p.paramID = key) ∧
      AudioProcessorValueTreeState.getRawParameterValue
        ⟨createParams NUMBER_OF_OSCILLATORS, snapshot⟩ key ≠ none) ∧
    applyOscillatorParameters ⟨createParams NUMBER_OF_OSCILLATORS, snapshot⟩ voice o ≠
      none := by
  have key_ok : ∀ name ∈ parameterNames,
      (∃ p ∈ createParams NUMBER_OF_OSCILLATORS, p.paramID = name ++ toString o) ∧
      AudioProcessorValueTreeState.getRawParameterValue
        ⟨createParams NUMBER_OF_OSCILLATORS, snapshot⟩ (name ++ toString o) ≠ none := by
    intro name hname
    refine ⟨declared_key_mem _ o ho name hname, ?_⟩
    rw [getRawParameterValue_declared _ o ho snapshot name hname]
    exact Option.some_ne_none _
  refine ⟨?_, ?_⟩
  · intro key hkey
    simp only [List.mem_cons, List.mem_singleton, List.not_mem_nil, or_false] at hkey
    rcases hkey with rfl | rfl | rfl | rfl | rfl | rfl | rfl | rfl | rfl | rfl | rfl | rfl <;>
      exact key_ok _ (by decide)
  · rw [applyOscillatorParameters_eq _ o ho]
    exact Option.some_ne_none _

/-- C9 at `NUMBER_OF_OSCILLATORS = 12`, oscillator 11 (a two-digit index). -/
theorem C9_looked_up_keys_are_declared_witness :
    11 < 12 ∧
    (∀ key ∈ ["OSCWAVETYPE" ++ toString 11, "OSCON" ++ toString 11,
          "OSCOCTAVE" ++ toString 11, "OSCSEMI" ++ toString 11, "OSCDETUNE" ++ toString 11,
          "OSCGAIN" ++ toString 11, "ATTACK" ++ toString 11, "DECAY" ++ toString 11,
          "SUSTAIN" ++ toString 11, "RELEASE" ++ toString 11, "OSCFMDEPTH" ++ toString 11,
          "OSCFMFREQ" ++ toString 11],
      (∃ p ∈ createParams 12, p.paramID = key) ∧
      AudioProcessorValueTreeState.getRawParameterValue
        ⟨createParams 12, halfSnapshot⟩ key ≠ none) ∧
    applyOscillatorParameters ⟨createParams 12, halfSnapshot⟩ zeroVoice 11 ≠ none :=
  ⟨by decide, C9_looked_up_keys_are_declared 12 11 (by decide) halfSnapshot zeroVoice⟩

/-- C10: `createParams` declares exactly twelve parameters per oscillator, in the
order of `parameterNames` (OSCWAVETYPE, OSCON, OSCOCTAVE, OSCSEMI, OSCDETUNE,
OSCGAIN, OSCFMFREQ, OSCFMDEPTH, ATTACK, DECAY, SUSTAIN, RELEASE); the `j`-th of
oscillator `o` has key name-then-`o` and numeric id `11 * o + j`. Hence
`OSCWAVETYPE0` has numeric id 0, `OSCWAVETYPEo` has numeric id `11 * o`,
`RELEASEo` has `11 * o + 11`, and the next oscillator's `OSCWAVETYPE` shares the
numeric id of `RELEASEo`. -/
theorem C10_numeric_ids (NUMBER_OF_OSCILLATORS o j : Nat)
    (ho : o < NUMBER_OF_OSCILLATORS) (hj : j < 12) :
    (createParams NUMBER_OF_OSCILLATORS).length = 12 * NUMBER_OF_OSCILLATORS ∧
    parameterNames.length = 12 ∧
    (∃ name p, parameterNames[j]? = some name ∧
      (createParams NUMBER_OF_OSCILLATORS)[12 * o + j]? = some p ∧
      p.paramID = name ++ toString o ∧ p.versionHint = 11 * o + j) ∧
    (getParameter (createParams NUMBER_OF_OSCILLATORS) ("OSCWAVETYPE" ++ toString 0)).map
        (fun p => p.versionHint) = some 0 ∧
    (getParameter (createParams NUMBER_OF_OSCILLATORS) ("OSCWAVETYPE" ++ toString o)).map
        (fun p => p.versionHint) = some (11 * o) ∧
    (getParameter (createParams NUMBER_OF_OSCILLATORS) ("RELEASE" ++ toString o)).map
        (fun p => p.versionHint) = some (11 * o + 11) ∧
    (o + 1 < NUMBER_OF_OSCILLATORS →
      (getParameter (createParams NUMBER_OF_OSCILLATORS)
          ("OSCWAVETYPE" ++ toString (o + 1))).map (fun p => p.versionHint) =
        (getParameter (createParams NUMBER_OF_OSCILLATORS)
          ("RELEASE" ++ toString o)).map (fun p => p.versionHint)) := by
  have hw := (getParameter_oscillatorBlock NUMBER_OF_OSCILLATORS o ho).1
  have hr := (getParameter_oscillatorBlock NUMBER_OF_OSCILLATORS o ho).2.2.2.2.2.2.2.2.2.2.2
  have hw0 := (getParameter_oscillatorBlock NUMBER_OF_OSCILLATORS 0 (by omega)).1
  refine ⟨createParams_length _, rfl, ?_, by rw [hw0]; rfl, by rw [hw]; rfl,
    by rw [hr]; rfl, ?_⟩
  · rw [createParams_getElem? _ o j ho hj]
    interval_cases j <;> exact ⟨_, _, rfl, rfl, rfl, rfl⟩
  · intro ho'
    rw [hr, (getParameter_oscillatorBlock NUMBER_OF_OSCILLATORS (o + 1) ho').1]
    simp only [Option.map_some', Option.some.injEq]
    omega

/-- C10 at `NUMBER_OF_OSCILLATORS = 3`, oscillator 1, parameter 4 (`OSCDETUNE1`). -/
theorem C10_numeric_ids_witness :
    1 < 3 ∧ 4 < 12 ∧
    (createParams 3).length = 12 * 3 ∧
    parameterNames.length = 12 ∧
    (∃ name p, parameterNames[4]? = some name ∧
      (createParams 3)[12 * 1 + 4]? = some p ∧
      p.paramID = name ++ toString 1 ∧ p.versionHint = 11 * 1 + 4) ∧
    (getParameter (createParams 3) ("OSCWAVETYPE" ++ toString 0)).map
        (fun p => p.versionHint) = some 0 ∧
    (getParameter (createParams 3) ("OSCWAVETYPE" ++ toString 1)).map
        (fun p => p.versionHint) = some (11 * 1) ∧
    (getParameter (createParams 3) ("RELEASE" ++ toString 1)).map
        (fun p => p.versionHint) = some (11 * 1 + 11) ∧
    (1 + 1 < 3 →
      (getParameter (createParams 3) ("OSCWAVETYPE" ++ toString (1 + 1))).map
          (fun p => p.versionHint) =
        (getParameter (createParams 3) ("RELEASE" ++ toString 1)).map
          (fun p => p.versionHint)) :=
  ⟨by decide, by decide, C10_numeric_ids 3 1 4 (by decide) (by decide)⟩

end SynthTalk
